import Mathlib

/-!
Verification of the points/streak/achievement bookkeeping subsystem of the
learn-gujarati application.

The embedding models the two core operations:

* `handle_daily_login` — the server-side SQL procedure computing the daily
  login reward and streak (tables `profiles` and `daily_logins`); and
* `trackActivity` / `handleDailyLogin` — the client hook driving activity
  milestone bonuses over the `achievement_progress` table.

Database tables are modelled as association lists keyed by the unique keys
the schema declares (`profiles.user_id`, `daily_logins (user_id, login_date)`,
`achievement_progress (user_id, achievement_type)`).  Calendar dates and
timestamps are integers (days since an arbitrary epoch); nullable SQL columns
are `Option` values, with SQL `COALESCE(x, 0)` as `Option.getD 0` and the SQL
three-valued comparison `NULL = d` evaluating to false in an `IF`.
-/

namespace LearnGujarati

/-- Activity types accepted by `trackActivity` (TypeScript union `quiz | game`). -/
inductive ActivityType where
  | quiz
  | game
deriving DecidableEq, Repr

/-- The fields of a `profiles` row used by this subsystem.  `points`,
`current_streak` and `last_login_date` are all nullable in the schema. -/
structure Profile where
  points : Option Int
  current_streak : Option Int
  last_login_date : Option Int
deriving DecidableEq, Repr

/-- An `achievement_progress` row (minus the generated id/created_at). -/
structure ProgressRow where
  current_count : Int
  bonus_claimed : Bool
  last_updated : Int
deriving DecidableEq, Repr

/-- The record-store state visible to the core subsystem. -/
structure DBState where
  profiles : List (Nat × Profile)
  daily_logins : List (Nat × Int)
  achievement_progress : List ((Nat × ActivityType) × ProgressRow)
deriving DecidableEq, Repr

/-- The row returned by `handle_daily_login`. -/
structure LoginResult where
  points_earned : Int
  streak_count : Int
  is_new_login : Bool
deriving DecidableEq, Repr

/-- Store-level errors surfaced to callers; the only one this subsystem can
hit is the unique-constraint violation on `daily_logins (user_id, login_date)`. -/
inductive DBError where
  | uniqueViolation
deriving DecidableEq, Repr

/-- SQL `COALESCE(x, 0)`. -/
def coalesceI (x : Option Int) : Int := x.getD 0

/-- Lookup in an association list by unique key (`selectOne` by key equality). -/
def lookupKey {α β : Type} [DecidableEq α] (k : α) : List (α × β) → Option β
  | [] => none
  | r :: t => if r.1 = k then some r.2 else lookupKey k t

/-- SQL `UPDATE ... WHERE key = k`: apply `f` to every row whose key is `k`. -/
def updateWhere {α β : Type} [DecidableEq α] (k : α) (f : β → β)
    (l : List (α × β)) : List (α × β) :=
  l.map fun r => if r.1 = k then (r.1, f r.2) else r

/-- The `SELECT COUNT(*) FROM daily_logins WHERE user_id = u AND login_date = d`
query at the top of `handle_daily_login`. -/
def existingLoginCount (s : DBState) (u : Nat) (d : Int) : Nat :=
  (s.daily_logins.filter fun r => decide (r.1 = u ∧ r.2 = d)).length

/-- The `INSERT INTO daily_logins (user_id, login_date)` statement.  The
unique constraint on `(user_id, login_date)` makes the insert fail with a
unique-violation error when a row for the pair already exists. -/
def insertDailyLogin (s : DBState) (u : Nat) (d : Int) : Except DBError DBState :=
  if 0 < existingLoginCount s u d then
    Except.error DBError.uniqueViolation
  else
    Except.ok { s with daily_logins := s.daily_logins ++ [(u, d)] }

/-- The `UPDATE profiles SET current_streak = ..., last_login_date = ...,
points = COALESCE(points, 0) + points_to_add WHERE user_id = u` statement. -/
def updateProfileLogin (s : DBState) (u : Nat) (newStreak : Int) (d : Int)
    (ptsAdd : Int) : DBState :=
  let f := fun (p : Profile) =>
    { p with current_streak := some newStreak,
             last_login_date := some d,
             points := some (coalesceI p.points + ptsAdd) }
  { s with profiles := updateWhere u f s.profiles }

/-- The body of the plpgsql procedure `public.handle_daily_login`, run under
READ COMMITTED: each statement sees data committed before it starts, so the
initial `COUNT(*)` check may run against an older snapshot (`countSnap`) than
the rest of the transaction (`s`) when a concurrent duplicate call commits in
between.  A sequential call passes the same state for both.  `SELECT * INTO`
with zero matching rows assigns a row of NULLs to the record variable, so a
missing profile yields NULL fields rather than an error.  The procedure has
no exception handler: a unique violation on the insert aborts the whole
transaction (no state is returned). -/
def handle_daily_login_rc (countSnap : DBState) (s : DBState) (u : Nat)
    (today : Int) : Except DBError (LoginResult × DBState) :=
  let yesterday := today - 1
  if 0 < existingLoginCount countSnap u today then
    Except.ok ({ points_earned := 0,
                 streak_count :=
                   coalesceI ((lookupKey u s.profiles).bind Profile.current_streak),
                 is_new_login := false }, s)
  else
    let p := lookupKey u s.profiles
    let newStreak : Int :=
      if p.bind Profile.last_login_date = some yesterday then
        coalesceI (p.bind Profile.current_streak) + 1
      else 1
    let pointsToAdd : Int := if newStreak = 30 then 10 + 40 else 10
    match insertDailyLogin s u today with
    | Except.error e => Except.error e
    | Except.ok s1 =>
        Except.ok ({ points_earned := pointsToAdd,
                     streak_count := newStreak,
                     is_new_login := true },
                   updateProfileLogin s1 u newStreak today pointsToAdd)

/-- A sequential (race-free) invocation of `handle_daily_login`: the count
check and the rest of the transaction see the same state. -/
def handle_daily_login (s : DBState) (u : Nat) (today : Int) :
    Except DBError (LoginResult × DBState) :=
  handle_daily_login_rc s s u today

/-- The client hook `handleDailyLogin` from `useAchievements`: returns early
when `userId` is undefined; otherwise calls the procedure via rpc, and on any
error logs it and returns undefined (state of the failed transaction is
rolled back, so the pre-call state is kept). -/
def handleDailyLogin (userId : Option Nat) (countSnap s : DBState)
    (today : Int) : Option LoginResult × DBState :=
  match userId with
  | none => (none, s)
  | some u =>
      match handle_daily_login_rc countSnap s u today with
      | Except.error _ => (none, s)
      | Except.ok (r, s1) => (some r, s1)

/-- Read the `achievement_progress` row for `(user_id, achievement_type)`
(the `.select().eq().eq().single()` query; no row gives null data). -/
def lookupProgress (s : DBState) (u : Nat) (t : ActivityType) : Option ProgressRow :=
  lookupKey (u, t) s.achievement_progress

/-- The `.upsert(..., onConflict: user_id,achievement_type)` call: update
`current_count` and `last_updated` of the existing row, or insert a fresh row
whose `bonus_claimed` takes its schema default `false`. -/
def upsertProgress (s : DBState) (u : Nat) (t : ActivityType) (newCount : Int)
    (now : Int) : DBState :=
  match lookupProgress s u t with
  | some _ =>
      let f := fun (r : ProgressRow) =>
        { r with current_count := newCount, last_updated := now }
      { s with achievement_progress := updateWhere (u, t) f s.achievement_progress }
  | none =>
      let row : ProgressRow :=
        { current_count := newCount, bonus_claimed := false, last_updated := now }
      { s with achievement_progress := s.achievement_progress ++ [((u, t), row)] }

/-- The `.from(profiles).update(\x7b points: ... \x7d).eq(user_id, userId)` call. -/
def updatePoints (s : DBState) (u : Nat) (newPoints : Int) : DBState :=
  let f := fun (p : Profile) => { p with points := some newPoints }
  { s with profiles := updateWhere u f s.profiles }

/-- The `.from(achievement_progress).update(\x7b bonus_claimed: true \x7d)` call. -/
def setBonusClaimed (s : DBState) (u : Nat) (t : ActivityType) : DBState :=
  let f := fun (r : ProgressRow) => { r with bonus_claimed := true }
  { s with achievement_progress := updateWhere (u, t) f s.achievement_progress }

/-- The client hook `trackActivity` from `useAchievements`.  Returns the
bonus points credited (0 or 50) together with the resulting store state.
Mirrors the source: early return on undefined `userId`; `newCount =
(currentProgress?.current_count || 0) + 1`; upsert; milestone check against
the pre-read row's `bonus_claimed` (`!currentProgress?.bonus_claimed` is true
when the row is absent); on a bonus, read-add-write the profile points and
then set `bonus_claimed`. -/
def trackActivity (userId : Option Nat) (t : ActivityType) (now : Int)
    (s : DBState) : Int × DBState :=
  match userId with
  | none => (0, s)
  | some u =>
      let currentProgress := lookupProgress s u t
      let newCount : Int := coalesceI (currentProgress.map ProgressRow.current_count) + 1
      let s1 := upsertProgress s u t newCount now
      let claimed : Bool := (currentProgress.map ProgressRow.bonus_claimed).getD false
      let bonusPoints : Int :=
        if t = ActivityType.quiz ∧ newCount = 30 ∧ claimed = false then 50
        else if t = ActivityType.game ∧ newCount = 50 ∧ claimed = false then 50
        else 0
      if 0 < bonusPoints then
        let profilePts : Int := coalesceI ((lookupKey u s1.profiles).bind Profile.points)
        let s2 := updatePoints s1 u (profilePts + bonusPoints)
        (bonusPoints, setBonusClaimed s2 u t)
      else
        (bonusPoints, s1)

/-- The profile's points, with NULL (or a missing profile) read as 0, as both
credit paths do. -/
def profilePoints (s : DBState) (u : Nat) : Int :=
  coalesceI ((lookupKey u s.profiles).bind Profile.points)

/-- The stored activity count for a pair, an absent row counting as 0. -/
def progressCount (s : DBState) (u : Nat) (t : ActivityType) : Int :=
  coalesceI ((lookupProgress s u t).map ProgressRow.current_count)

/-- The stored `bonus_claimed` flag for a pair, an absent row counting as
not claimed. -/
def claimedOf (s : DBState) (u : Nat) (t : ActivityType) : Bool :=
  ((lookupProgress s u t).map ProgressRow.bonus_claimed).getD false

/-- The state transformer of one successful `trackActivity` call. -/
def trackStep (u : Nat) (t : ActivityType) (now : Int) (s : DBState) : DBState :=
  (trackActivity (some u) t now s).2



/-- The milestone eligibility condition of `trackActivity`, as checked by the
source against the pre-read row: exact-threshold count with an unclaimed flag. -/
def bonusEligible (s : DBState) (u : Nat) (t : ActivityType) : Prop :=
  (t = ActivityType.quiz ∧ progressCount s u t + 1 = 30 ∧ claimedOf s u t = false)
    ∨ (t = ActivityType.game ∧ progressCount s u t + 1 = 50 ∧ claimedOf s u t = false)

instance (s : DBState) (u : Nat) (t : ActivityType) : Decidable (bonusEligible s u t) := by
  unfold bonusEligible; infer_instance

/-- A sample profile used to exercise the theorems on concrete data. -/
def wProfile : Profile :=
  { points := some 100, current_streak := some 5, last_login_date := some 10 }

/-- A store where user 1 has already logged in on day 11. -/
def loggedState : DBState :=
  { profiles := [(1, wProfile)], daily_logins := [(1, 11)], achievement_progress := [] }

/-- A store where user 1 has not yet logged in on day 11. -/
def freshState : DBState :=
  { profiles := [(1, wProfile)], daily_logins := [], achievement_progress := [] }

/-- A store with no rows at all (in particular no profile for user 1). -/
def emptyState : DBState :=
  { profiles := [], daily_logins := [], achievement_progress := [] }

/-- A store where user 1 already claimed the quiz milestone bonus. -/
def claimedState : DBState :=
  { profiles := [(1, wProfile)], daily_logins := [],
    achievement_progress :=
      [((1, ActivityType.quiz),
        { current_count := 42, bonus_claimed := true, last_updated := 0 })] }

/-- A store where user 1 has 29 quizzes done and an unclaimed bonus. -/
def nearState : DBState :=
  { profiles := [(1, wProfile)], daily_logins := [],
    achievement_progress :=
      [((1, ActivityType.quiz),
        { current_count := 29, bonus_claimed := false, last_updated := 0 })] }

/-- Looking a key up after a keyed update: the updated key's value is mapped
through `f`, every other key is untouched. -/
theorem lookupKey_updateWhere {α β : Type} [DecidableEq α] (k k' : α) (f : β → β)
    (l : List (α × β)) :
    lookupKey k' (updateWhere k f l) =
      if k' = k then (lookupKey k' l).map f else lookupKey k' l := by
  induction l with
  | nil => simp [updateWhere, lookupKey]
  | cons r t ih =>
      simp only [updateWhere, List.map_cons] at *
      by_cases h1 : r.1 = k
      · by_cases h2 : k' = k
        · subst h2
          simp [lookupKey, h1, ih]
        · simp [lookupKey, h1, h2, ih, Ne.symm h2]
      · by_cases h2 : k' = k
        · subst h2
          have h3 : ¬r.1 = k' := h1
          simp [lookupKey, h1, h3, ih]
        · by_cases h3 : r.1 = k'
          · simp [lookupKey, h1, h2, h3]
          · simp [lookupKey, h1, h2, h3, ih]

/-- A keyed update leaves the list unchanged when the key is absent. -/
theorem updateWhere_of_lookup_none {α β : Type} [DecidableEq α] (k : α) (f : β → β)
    (l : List (α × β)) (h : lookupKey k l = none) :
    updateWhere k f l = l := by
  induction l with
  | nil => rfl
  | cons r t ih =>
      simp only [lookupKey] at h
      by_cases h1 : r.1 = k
      · simp [h1] at h
      · simp [h1] at h
        simp [updateWhere, List.map_cons, h1] at *
        exact ih h

/-- Appending cannot shadow a key that is already bound. -/
theorem lookupKey_append_some {α β : Type} [DecidableEq α] (k : α) (v : β)
    (l m : List (α × β)) (h : lookupKey k l = some v) :
    lookupKey k (l ++ m) = some v := by
  induction l with
  | nil => simp [lookupKey] at h
  | cons r t ih =>
      simp only [lookupKey, List.cons_append] at *
      by_cases h1 : r.1 = k <;> simp [h1] at h ⊢
      · exact h
      · exact ih h

/-- Looking up a key absent from `l` after appending a single row. -/
theorem lookupKey_append_of_none {α β : Type} [DecidableEq α] (k k2 : α) (v : β)
    (l : List (α × β)) (h : lookupKey k l = none) :
    lookupKey k (l ++ [(k2, v)]) = if k2 = k then some v else none := by
  induction l with
  | nil => simp [lookupKey]
  | cons r t ih =>
      simp only [lookupKey, List.cons_append] at *
      by_cases h1 : r.1 = k <;> simp [h1] at h ⊢
      exact ih h



/-- Appending a row for a different key does not change a lookup. -/
theorem lookupKey_append_single_ne {α β : Type} [DecidableEq α] (k k2 : α) (v : β)
    (l : List (α × β)) (h : ¬k2 = k) :
    lookupKey k (l ++ [(k2, v)]) = lookupKey k l := by
  induction l with
  | nil => simp [lookupKey, h]
  | cons r t ih =>
      simp only [lookupKey, List.cons_append]
      by_cases h1 : r.1 = k <;> simp [h1, ih]

/-- The upsert touches only `achievement_progress`. -/
theorem upsertProgress_profiles (s : DBState) (u : Nat) (t : ActivityType)
    (c now : Int) : (upsertProgress s u t c now).profiles = s.profiles := by
  cases h : lookupProgress s u t <;> simp [upsertProgress, h]

/-- The upsert touches only `achievement_progress` (login records part). -/
theorem upsertProgress_logins (s : DBState) (u : Nat) (t : ActivityType)
    (c now : Int) : (upsertProgress s u t c now).daily_logins = s.daily_logins := by
  cases h : lookupProgress s u t <;> simp [upsertProgress, h]

/-- After the upsert, the written pair holds the new count and timestamp and
keeps the previously stored claim flag (an absent row starts unclaimed). -/
theorem lookupProgress_upsert_self (s : DBState) (u : Nat) (t : ActivityType)
    (c now : Int) :
    lookupProgress (upsertProgress s u t c now) u t =
      some { current_count := c, bonus_claimed := claimedOf s u t,
             last_updated := now } := by
  cases h : lookupProgress s u t with
  | none =>
      have h' : lookupKey (u, t) s.achievement_progress = none := h
      simp [upsertProgress, lookupProgress, h', claimedOf, h,
        lookupKey_append_of_none _ _ _ _ h']
  | some r =>
      have h' : lookupKey (u, t) s.achievement_progress = some r := h
      simp [upsertProgress, lookupProgress, h', claimedOf, h, lookupKey_updateWhere]

/-- The upsert leaves every other pair's row alone. -/
theorem lookupProgress_upsert_other (s : DBState) (u : Nat) (t : ActivityType)
    (c now : Int) (u' : Nat) (t' : ActivityType) (hk : ¬((u', t') = (u, t))) :
    lookupProgress (upsertProgress s u t c now) u' t' = lookupProgress s u' t' := by
  cases h : lookupProgress s u t with
  | none =>
      have h' : lookupKey (u, t) s.achievement_progress = none := h
      simp [upsertProgress, lookupProgress, h',
        lookupKey_append_single_ne _ _ _ _ (Ne.symm hk)]
  | some r =>
      have h' : lookupKey (u, t) s.achievement_progress = some r := h
      simp [upsertProgress, lookupProgress, h', lookupKey_updateWhere, hk]

/-- The upsert never changes any pair's `bonus_claimed`. -/
theorem claimedOf_upsert (s : DBState) (u : Nat) (t : ActivityType)
    (c now : Int) (u' : Nat) (t' : ActivityType) :
    claimedOf (upsertProgress s u t c now) u' t' = claimedOf s u' t' := by
  by_cases hk : (u', t') = (u, t)
  · rw [Prod.mk.injEq] at hk
    obtain ⟨rfl, rfl⟩ := hk
    simp [claimedOf, lookupProgress_upsert_self]
  · simp [claimedOf, lookupProgress_upsert_other s u t c now u' t' hk]



/-- Setting the claim flag touches only `achievement_progress`. -/
theorem setBonusClaimed_profiles (s : DBState) (u : Nat) (t : ActivityType) :
    (setBonusClaimed s u t).profiles = s.profiles := rfl

/-- Updating points touches only `profiles`. -/
theorem updatePoints_progress (s : DBState) (u : Nat) (n : Int) :
    (updatePoints s u n).achievement_progress = s.achievement_progress := rfl

/-- Reading a row after the claim-flag update. -/
theorem lookupProgress_setBonusClaimed (s : DBState) (u : Nat) (t : ActivityType)
    (u' : Nat) (t' : ActivityType) :
    lookupProgress (setBonusClaimed s u t) u' t' =
      if (u', t') = (u, t) then
        (lookupProgress s u' t').map (fun r => { r with bonus_claimed := true })
      else lookupProgress s u' t' := by
  simp [setBonusClaimed, lookupProgress, lookupKey_updateWhere]

/-- A claimed flag survives the claim-flag update of any pair. -/
theorem claimedOf_setBonusClaimed_mono (s : DBState) (u : Nat) (t : ActivityType)
    (u' : Nat) (t' : ActivityType) (h : claimedOf s u' t' = true) :
    claimedOf (setBonusClaimed s u t) u' t' = true := by
  simp only [claimedOf, lookupProgress_setBonusClaimed]
  by_cases hk : (u', t') = (u, t)
  · cases hr : lookupProgress s u' t' with
    | none => simp only [claimedOf, hr] at h; simp at h
    | some r => simp [hk, hr]
  · simp only [claimedOf] at h
    simp [hk, h]

/-- Reading a profile after the absolute points write. -/
theorem lookupKey_updatePoints (s : DBState) (u : Nat) (n : Int) (u' : Nat) :
    lookupKey u' (updatePoints s u n).profiles =
      if u' = u then
        (lookupKey u' s.profiles).map (fun p => { p with points := some n })
      else lookupKey u' s.profiles := by
  simp [updatePoints, lookupKey_updateWhere]



/-- Closed form of a `trackActivity` call with a defined user: the progress
row is upserted with the incremented count, and exactly when the milestone
condition holds the profile points are rewritten to their old value plus 50
and the claim flag is set. -/
theorem trackActivity_some_eq (u : Nat) (t : ActivityType) (now : Int) (s : DBState) :
    trackActivity (some u) t now s =
      if bonusEligible s u t then
        (50, setBonusClaimed
               (updatePoints (upsertProgress s u t (progressCount s u t + 1) now) u
                 (profilePoints s u + 50))
               u t)
      else (0, upsertProgress s u t (progressCount s u t + 1) now) := by
  have hprof : (upsertProgress s u t (progressCount s u t + 1) now).profiles
      = s.profiles := upsertProgress_profiles _ _ _ _ _
  simp only [trackActivity, bonusEligible, progressCount, claimedOf, profilePoints, hprof]
  cases t with
  | quiz =>
      by_cases h30 :
          coalesceI ((lookupProgress s u ActivityType.quiz).map ProgressRow.current_count) + 1 = 30 <;>
        by_cases hcl :
            ((lookupProgress s u ActivityType.quiz).map ProgressRow.bonus_claimed).getD false = false <;>
          simp [h30, hcl, upsertProgress_profiles]
  | game =>
      by_cases h50 :
          coalesceI ((lookupProgress s u ActivityType.game).map ProgressRow.current_count) + 1 = 50 <;>
        by_cases hcl :
            ((lookupProgress s u ActivityType.game).map ProgressRow.bonus_claimed).getD false = false <;>
          simp [h50, hcl, upsertProgress_profiles]



/-- The absolute points write does not touch `achievement_progress`. -/
theorem lookupProgress_updatePoints (s : DBState) (u : Nat) (n : Int)
    (u' : Nat) (t' : ActivityType) :
    lookupProgress (updatePoints s u n) u' t' = lookupProgress s u' t' := rfl

/-- One `trackActivity` call leaves the tracked pair's row present with the
incremented count. -/
theorem trackStep_count (u : Nat) (t : ActivityType) (now : Int) (s : DBState) :
    (lookupProgress (trackStep u t now s) u t).map ProgressRow.current_count
      = some (progressCount s u t + 1) := by
  rw [trackStep, trackActivity_some_eq]
  by_cases h : bonusEligible s u t
  · simp [h, lookupProgress_setBonusClaimed, lookupProgress_updatePoints,
      lookupProgress_upsert_self]
  · simp [h, lookupProgress_upsert_self]

/-- One `trackActivity` call increments the stored count by exactly 1. -/
theorem progressCount_trackStep (u : Nat) (t : ActivityType) (now : Int) (s : DBState) :
    progressCount (trackStep u t now s) u t = progressCount s u t + 1 := by
  rw [progressCount, trackStep_count]
  rfl

/-- Iterating `trackActivity` adds the number of calls to the stored count. -/
theorem progressCount_iterate (u : Nat) (t : ActivityType) (now : Int) (s : DBState) :
    ∀ n : Nat, progressCount ((trackStep u t now)^[n] s) u t = progressCount s u t + n := by
  intro n
  induction n with
  | zero => simp
  | succ n ih =>
      rw [Function.iterate_succ_apply', progressCount_trackStep, ih]
      push_cast
      ring



/-- Closed form of the new-login path of the procedure under READ COMMITTED,
when neither snapshot holds a record for `(u, today)`. -/
theorem handle_daily_login_rc_new (countSnap s : DBState) (u : Nat) (today : Int)
    (hcount : existingLoginCount countSnap u today = 0)
    (hins : existingLoginCount s u today = 0) :
    handle_daily_login_rc countSnap s u today =
      (let p := lookupKey u s.profiles
       let ns : Int := if p.bind Profile.last_login_date = some (today - 1)
                       then coalesceI (p.bind Profile.current_streak) + 1 else 1
       let pts : Int := if ns = 30 then 50 else 10
       Except.ok ({ points_earned := pts, streak_count := ns, is_new_login := true },
         updateProfileLogin { s with daily_logins := s.daily_logins ++ [(u, today)] }
           u ns today pts)) := by
  have h1 : ¬0 < existingLoginCount countSnap u today := by omega
  have h2 : ¬0 < existingLoginCount s u today := by omega
  simp [handle_daily_login_rc, insertDailyLogin, h1, h2]

/-- Closed form of the sequential new-login path. -/
theorem handle_daily_login_new (s : DBState) (u : Nat) (today : Int)
    (hcount : existingLoginCount s u today = 0) :
    handle_daily_login s u today =
      (let p := lookupKey u s.profiles
       let ns : Int := if p.bind Profile.last_login_date = some (today - 1)
                       then coalesceI (p.bind Profile.current_streak) + 1 else 1
       let pts : Int := if ns = 30 then 50 else 10
       Except.ok ({ points_earned := pts, streak_count := ns, is_new_login := true },
         updateProfileLogin { s with daily_logins := s.daily_logins ++ [(u, today)] }
           u ns today pts)) :=
  handle_daily_login_rc_new s s u today hcount hcount

/-- The profile reward update only adds a non-negative amount to any
profile's (coalesced) points. -/
theorem profilePoints_updateProfileLogin_le (s : DBState) (u : Nat)
    (ns d pts : Int) (hpts : 0 ≤ pts) (u' : Nat) :
    profilePoints s u' ≤ profilePoints (updateProfileLogin s u ns d pts) u' := by
  by_cases hu : u' = u
  · subst hu
    simp only [profilePoints, updateProfileLogin, lookupKey_updateWhere, if_pos rfl]
    cases hp : lookupKey u' s.profiles with
    | none => simp [hp, coalesceI]
    | some p =>
        simp [hp, coalesceI]
        linarith
  · simp [profilePoints, updateProfileLogin, lookupKey_updateWhere, hu]

/-- The absolute points write does not touch any claim flag. -/
theorem claimedOf_updatePoints (s : DBState) (u : Nat) (n : Int)
    (u' : Nat) (t' : ActivityType) :
    claimedOf (updatePoints s u n) u' t' = claimedOf s u' t' := rfl


/-- C1: if a DailyLoginRecord for (userId, today) already exists, the
procedure returns pointsEarned 0, the profile's current streak, and
isNewLogin false, and leaves the whole store state unchanged. -/
theorem daily_login_same_day_noop (s : DBState) (u : Nat) (today : Int)
    (p : Profile) (st : Int)
    (hcount : 0 < existingLoginCount s u today)
    (hp : lookupKey u s.profiles = some p)
    (hst : p.current_streak = some st) :
    handle_daily_login s u today =
      Except.ok ({ points_earned := 0, streak_count := st, is_new_login := false }, s) := by
  simp [handle_daily_login, handle_daily_login_rc, hcount, hp, hst, coalesceI]

/-- Witness for C1 on a concrete store. -/
theorem daily_login_same_day_noop_witness :
    handle_daily_login loggedState 1 11 =
      Except.ok ({ points_earned := 0, streak_count := 5, is_new_login := false },
        loggedState) :=
  daily_login_same_day_noop loggedState 1 11 wProfile 5 (by decide) rfl rfl

/-- C2: on a new login the streak becomes current_streak + 1 exactly when
last_login_date equals today - 1, and 1 in every other case. -/
theorem daily_login_streak_rule (s : DBState) (u : Nat) (today : Int)
    (p : Profile) (cs : Int)
    (hcount : existingLoginCount s u today = 0)
    (hp : lookupKey u s.profiles = some p)
    (hcs : p.current_streak = some cs) :
    ∃ r s', handle_daily_login s u today = Except.ok (r, s')
      ∧ r.is_new_login = true
      ∧ r.streak_count =
          (if p.last_login_date = some (today - 1) then cs + 1 else 1) := by
  rw [handle_daily_login_new s u today hcount]
  refine ⟨_, _, rfl, rfl, ?_⟩
  simp [hp, hcs, coalesceI]

/-- Witness for C2: last login was yesterday, streak 5 becomes 6. -/
theorem daily_login_streak_rule_witness :
    ∃ r s', handle_daily_login freshState 1 11 = Except.ok (r, s')
      ∧ r.is_new_login = true
      ∧ r.streak_count =
          (if wProfile.last_login_date = some (11 - 1) then 5 + 1 else 1) :=
  daily_login_streak_rule freshState 1 11 wProfile 5 rfl rfl rfl

/-- C3: on a new login the points earned are 50 exactly when the freshly
computed streak equals 30, and 10 in every other case. -/
theorem daily_login_points_rule (s : DBState) (u : Nat) (today : Int)
    (hcount : existingLoginCount s u today = 0) :
    ∃ r s', handle_daily_login s u today = Except.ok (r, s')
      ∧ r.is_new_login = true
      ∧ r.points_earned = (if r.streak_count = 30 then (50 : Int) else 10) := by
  rw [handle_daily_login_new s u today hcount]
  exact ⟨_, _, rfl, rfl, rfl⟩

/-- Witness for C3 on a concrete store. -/
theorem daily_login_points_rule_witness :
    ∃ r s', handle_daily_login freshState 1 11 = Except.ok (r, s')
      ∧ r.is_new_login = true
      ∧ r.points_earned = (if r.streak_count = 30 then (50 : Int) else 10) :=
  daily_login_points_rule freshState 1 11 rfl


/-- Counterexample for C4: when the initial existence check passes on its
snapshot but the insert hits the unique constraint (a concurrent duplicate
call committed in between), the procedure propagates the unique-violation
error instead of recovering with an isNewLogin = false result. -/
theorem conflict_recovery_cex :
    handle_daily_login_rc freshState loggedState 1 11 =
      Except.error DBError.uniqueViolation := rfl

/-- C4 (amended): on a unique-constraint conflict the procedure propagates
the error and the transaction aborts; the client catches it and returns no
result, keeping the pre-call state — so no double credit occurs, but the
idempotent already-logged-in response is not produced. -/
theorem conflict_aborts_without_credit (countSnap s : DBState) (u : Nat)
    (today : Int)
    (hc0 : existingLoginCount countSnap u today = 0)
    (hc1 : 0 < existingLoginCount s u today) :
    handle_daily_login_rc countSnap s u today = Except.error DBError.uniqueViolation
      ∧ handleDailyLogin (some u) countSnap s today = (none, s) := by
  have hni : ¬0 < existingLoginCount countSnap u today := by omega
  refine ⟨?_, ?_⟩
  · simp [handle_daily_login_rc, insertDailyLogin, hni, hc1]
  · simp [handleDailyLogin, handle_daily_login_rc, insertDailyLogin, hni, hc1]

/-- Witness for the amended C4 on concrete snapshots. -/
theorem conflict_aborts_without_credit_witness :
    handle_daily_login_rc freshState loggedState 1 11 =
        Except.error DBError.uniqueViolation
      ∧ handleDailyLogin (some 1) freshState loggedState 11 = (none, loggedState) :=
  conflict_aborts_without_credit freshState loggedState 1 11 rfl (by decide)

/-- Counterexample for C5: with no profiles row at all for user 1, the
procedure does not fail — it inserts the login record and reports a
successful 10-point reward with streak 1. -/
theorem missing_profile_no_error_cex :
    handle_daily_login emptyState 1 11 =
      Except.ok ({ points_earned := 10, streak_count := 1, is_new_login := true },
        { profiles := [], daily_logins := [(1, 11)], achievement_progress := [] }) := rfl

/-- C5 (amended): when the Profile row is missing, the procedure does not
propagate an error; the profile record reads as NULLs, so the streak is 1
and the reward 10, the DailyLoginRecord is inserted, the profile update
matches no row, and the call reports a successful new login. -/
theorem missing_profile_defaults (s : DBState) (u : Nat) (today : Int)
    (hcount : existingLoginCount s u today = 0)
    (hp : lookupKey u s.profiles = none) :
    handle_daily_login s u today =
      Except.ok ({ points_earned := 10, streak_count := 1, is_new_login := true },
        { s with daily_logins := s.daily_logins ++ [(u, today)] }) := by
  rw [handle_daily_login_new s u today hcount]
  simp [hp, updateProfileLogin, updateWhere_of_lookup_none]

/-- Witness for the amended C5 on the empty store. -/
theorem missing_profile_defaults_witness :
    handle_daily_login emptyState 1 11 =
      Except.ok ({ points_earned := 10, streak_count := 1, is_new_login := true },
        { emptyState with daily_logins := emptyState.daily_logins ++ [(1, 11)] }) :=
  missing_profile_defaults emptyState 1 11 rfl rfl


/-- C6: one trackActivity call stores previous count + 1 (absent row read as
0) under the unique (userId, activityType) key; 30 sequential quiz calls
starting from no prior progress end with current_count = 30. -/
theorem trackActivity_increments_count (s : DBState) (u : Nat)
    (t : ActivityType) (now : Int) :
    ((lookupProgress (trackStep u t now s) u t).map ProgressRow.current_count
        = some (progressCount s u t + 1))
      ∧ (lookupProgress s u ActivityType.quiz = none →
          (lookupProgress ((trackStep u ActivityType.quiz now)^[30] s) u
              ActivityType.quiz).map ProgressRow.current_count = some 30) := by
  refine ⟨trackStep_count u t now s, ?_⟩
  intro h0
  rw [show (30 : Nat) = 29 + 1 from rfl, Function.iterate_succ_apply',
    trackStep_count, progressCount_iterate]
  simp [progressCount, h0, coalesceI]

/-- Witness for C6: 30 quiz calls on an empty store reach count 30. -/
theorem trackActivity_increments_count_witness :
    (lookupProgress ((trackStep 1 ActivityType.quiz 7)^[30] emptyState) 1
        ActivityType.quiz).map ProgressRow.current_count = some 30 :=
  (trackActivity_increments_count emptyState 1 ActivityType.quiz 7).2 rfl

/-- C7: a 50-point bonus is credited to the profile's points exactly when
the milestone condition holds — quiz with new count exactly 30, or game with
new count exactly 50, with the claim flag still false. -/
theorem trackActivity_bonus_iff (s : DBState) (u : Nat) (t : ActivityType)
    (now : Int) (hprof : (lookupKey u s.profiles).isSome = true) :
    profilePoints (trackStep u t now s) u =
      profilePoints s u + (if bonusEligible s u t then 50 else 0) := by
  rw [trackStep, trackActivity_some_eq]
  by_cases h : bonusEligible s u t
  · obtain ⟨p, hp⟩ := Option.isSome_iff_exists.mp hprof
    simp [h, profilePoints, setBonusClaimed_profiles, lookupKey_updatePoints,
      upsertProgress_profiles, hp, coalesceI]
  · simp [h, profilePoints, upsertProgress_profiles]

/-- Witness for C7: the 30th quiz credits the bonus on a concrete store. -/
theorem trackActivity_bonus_iff_witness :
    profilePoints (trackStep 1 ActivityType.quiz 7 nearState) 1 =
      profilePoints nearState 1 +
        (if bonusEligible nearState 1 ActivityType.quiz then 50 else 0) :=
  trackActivity_bonus_iff nearState 1 ActivityType.quiz 7 rfl

/-- C8: bonus_claimed never reverts — any pair claimed before a
trackActivity call is still claimed after it — and a call on an
already-claimed pair credits no bonus and leaves every profile untouched. -/
theorem bonus_claimed_monotone (s : DBState) (u : Nat) (t : ActivityType)
    (now : Int) :
    (∀ u' t', claimedOf s u' t' = true →
        claimedOf (trackStep u t now s) u' t' = true)
      ∧ (claimedOf s u t = true →
          (trackActivity (some u) t now s).1 = 0
            ∧ (trackActivity (some u) t now s).2.profiles = s.profiles) := by
  constructor
  · intro u' t' h
    rw [trackStep, trackActivity_some_eq]
    by_cases hb : bonusEligible s u t
    · simp only [hb, if_true]
      apply claimedOf_setBonusClaimed_mono
      rw [claimedOf_updatePoints, claimedOf_upsert]
      exact h
    · simp only [hb, if_false]
      rw [claimedOf_upsert]
      exact h
  · intro h
    have hb : ¬bonusEligible s u t := by simp [bonusEligible, h]
    rw [trackActivity_some_eq]
    simp [hb, upsertProgress_profiles]

/-- Witness for C8 on a store whose quiz bonus is already claimed. -/
theorem bonus_claimed_monotone_witness :
    claimedOf (trackStep 1 ActivityType.quiz 7 claimedState) 1 ActivityType.quiz = true
      ∧ (trackActivity (some 1) ActivityType.quiz 7 claimedState).1 = 0 :=
  ⟨(bonus_claimed_monotone claimedState 1 ActivityType.quiz 7).1 1 ActivityType.quiz rfl,
   ((bonus_claimed_monotone claimedState 1 ActivityType.quiz 7).2 rfl).1⟩

/-- C10: with an undefined user identifier both operations return
immediately and leave the store untouched. -/
theorem undefined_user_noop (countSnap s : DBState) (today now : Int)
    (t : ActivityType) :
    handleDailyLogin none countSnap s today = (none, s)
      ∧ trackActivity none t now s = (0, s) :=
  ⟨rfl, rfl⟩


/-- The client login path never decreases any profile's points. -/
theorem profilePoints_le_handleDailyLogin (countSnap s : DBState)
    (uid : Option Nat) (today : Int) (u' : Nat) :
    profilePoints s u' ≤ profilePoints (handleDailyLogin uid countSnap s today).2 u' := by
  cases uid with
  | none => simp [handleDailyLogin]
  | some u =>
      by_cases h1 : 0 < existingLoginCount countSnap u today
      · simp [handleDailyLogin, handle_daily_login_rc, h1]
      · by_cases h2 : 0 < existingLoginCount s u today
        · simp [handleDailyLogin, handle_daily_login_rc, insertDailyLogin, h1, h2]
        · have hc0 : existingLoginCount countSnap u today = 0 := by omega
          have hc1 : existingLoginCount s u today = 0 := by omega
          simp only [handleDailyLogin, handle_daily_login_rc_new countSnap s u today hc0 hc1]
          have hpts : (0 : Int) ≤
              (if (if (lookupKey u s.profiles).bind Profile.last_login_date =
                      some (today - 1)
                   then coalesceI ((lookupKey u s.profiles).bind Profile.current_streak) + 1
                   else 1) = 30
               then (50 : Int) else 10) := by
            by_cases hcond : (if (lookupKey u s.profiles).bind Profile.last_login_date =
                some (today - 1)
              then coalesceI ((lookupKey u s.profiles).bind Profile.current_streak) + 1
              else 1) = (30 : Int)
            · rw [if_pos hcond]; norm_num
            · rw [if_neg hcond]; norm_num
          exact profilePoints_updateProfileLogin_le _ u _ today _ hpts u'

/-- The activity path never decreases any profile's points. -/
theorem profilePoints_le_trackActivity (uid : Option Nat) (t : ActivityType)
    (now : Int) (s : DBState) (u' : Nat) :
    profilePoints s u' ≤ profilePoints (trackActivity uid t now s).2 u' := by
  cases uid with
  | none => simp [trackActivity]
  | some u =>
      rw [trackActivity_some_eq]
      by_cases hb : bonusEligible s u t
      · simp only [hb, if_true]
        by_cases hu : u' = u
        · subst hu
          simp only [profilePoints, setBonusClaimed_profiles, lookupKey_updatePoints,
            upsertProgress_profiles, if_pos rfl]
          cases hp : lookupKey u' s.profiles with
          | none => simp [hp, coalesceI]
          | some p => simp [hp, coalesceI]
        · simp [profilePoints, setBonusClaimed_profiles, lookupKey_updatePoints,
            upsertProgress_profiles, hu]
      · simp [hb, profilePoints, upsertProgress_profiles]

/-- C9: every points write of the subsystem adds a non-negative delta, so
points never decrease under either the daily-login path or the activity
path, for every profile. -/
theorem points_never_decrease (countSnap s : DBState) (uid : Option Nat)
    (today now : Int) (t : ActivityType) (u' : Nat) :
    profilePoints s u' ≤ profilePoints (handleDailyLogin uid countSnap s today).2 u'
      ∧ profilePoints s u' ≤ profilePoints (trackActivity uid t now s).2 u' :=
  ⟨profilePoints_le_handleDailyLogin countSnap s uid today u',
   profilePoints_le_trackActivity uid t now s u'⟩

end LearnGujarati
